import Mathlib

/-!
# OpenAPI validating middleware (`openapi/openapi.go`)

A shallow embedding of the Go package `openapi`: the two constructors
(`NewFromFile`, `NewFromData`, both through `newFromSpec`) and the request
handler returned by `OpenAPI.Middleware`.

The package is a thin layer over three libraries.  Their parts are kept
apart from the package's own code:

* `kin-openapi` (loader, router, request validator) and `encoding/json`
  are capabilities of a `Lib` record: the handler is verified for every
  loader, router, validator and encoder;
* `net/http` (`Header`, `ResponseWriter`, `http.Error`) is written out as
  its documented contract, because the claims speak about status, header
  and body of the response;
* every call that leaves the package is recorded in a list of `Call`s, so
  that "is invoked once" and "is never run" are statements about a value.

A Go `error` is represented by its message (`err.Error()`), `err != nil`
by the `Except.error` / `Option.some` case.
-/

set_option maxRecDepth 100000

namespace openapi

/-! ## net/url, net/http data -/

/-- Go `url.URL`. -/
structure URL where
  Scheme : String
  Opaque : String
  Host : String
  Path : String
  RawPath : String
  RawQuery : String
  Fragment : String
deriving DecidableEq, Repr

/-- Go `http.Header`, a `map[string][]string`, as an association list
whose first entry for a key is the map's entry. -/
structure Header where
  entries : List (String × List String)
deriving DecidableEq, Repr

/-- Go `Header.Get`: the first value stored under the key, `""` when the
map has no value for it.  The keys this package passes (`"Host"`,
`"Content-Type"`) are already in canonical MIME form. -/
def Header.Get (h : Header) (key : String) : String :=
  match h.entries.lookup key with
  | some (v :: _) => v
  | _ => ""

/-- Go `Header.Set`: the key's entry becomes the single value. -/
def Header.Set (h : Header) (key value : String) : Header :=
  ⟨(key, [value]) :: h.entries.filter (fun e => e.1 != key)⟩

/-- Map membership `_, ok := h[key]`. -/
def Header.Has (h : Header) (key : String) : Bool :=
  (h.entries.lookup key).isSome

/-- Go `http.Request`, the fields a handler can read.  In Go both the
request and its `URL` field are pointers. -/
structure Request where
  Method : String
  URL : URL
  Header : Header
  Host : String
  Body : String
deriving DecidableEq, Repr

/-- The response a `http.ResponseWriter` is building: `status` is `none`
until the status line has been written. -/
structure ResponseWriter where
  header : Header
  status : Option Nat
  body : String
deriving DecidableEq, Repr

/-- A writer nothing has been written to. -/
def ResponseWriter.fresh : ResponseWriter := ⟨⟨[]⟩, none, ""⟩

/-- The call `w.Header().Set(key, value)`; once the status line is out the
header of the response no longer changes. -/
def ResponseWriter.HeaderSet (w : ResponseWriter) (key value : String) : ResponseWriter :=
  match w.status with
  | none => { w with header := w.header.Set key value }
  | some _ => w

/-- The call `w.WriteHeader(code)`; a second call is ignored. -/
def ResponseWriter.WriteHeader (w : ResponseWriter) (code : Nat) : ResponseWriter :=
  match w.status with
  | none => { w with status := some code }
  | some _ => w

/-- `http.StatusOK`. -/
def StatusOK : Nat := 200
/-- `http.StatusBadRequest`. -/
def StatusBadRequest : Nat := 400
/-- `http.StatusNotFound`. -/
def StatusNotFound : Nat := 404
/-- `http.MethodGet`. -/
def MethodGet : String := "GET"

/-- The call `w.Write(data)` as `http.ResponseWriter` documents it: if
`WriteHeader` has not been called, `Write` calls `WriteHeader(StatusOK)`
first, and if the header has no Content-Type line it adds one, set to
`DetectContentType` of the data.  `detect` is `http.DetectContentType`. -/
def ResponseWriter.Write (detect : String → String) (w : ResponseWriter) (data : String) :
    ResponseWriter :=
  match w.status with
  | none =>
    let header :=
      if w.header.Has "Content-Type" then w.header
      else w.header.Set "Content-Type" (detect data)
    { header := header, status := some StatusOK, body := w.body ++ data }
  | some _ => { w with body := w.body ++ data }

/-- Go `http.Error(w, error, code)`: two header lines, the status, and the
message printed with `fmt.Fprintln`, that is followed by a newline. -/
def Error (detect : String → String) (w : ResponseWriter) (error : String) (code : Nat) :
    ResponseWriter :=
  let w1 := w.HeaderSet "Content-Type" "text/plain; charset=utf-8"
  let w2 := w1.HeaderSet "X-Content-Type-Options" "nosniff"
  let w3 := w2.WriteHeader code
  w3.Write detect (error ++ "\n")

/-- An application handler `next`: what `next.ServeHTTP(w, r)` makes of the
writer it is given. -/
abbrev Handler := ResponseWriter → Request → ResponseWriter

/-! ## Library capabilities -/

/-- Go `openapi3filter.RequestValidationInput`, the fields the package sets. -/
structure RequestValidationInput (Route Params : Type) where
  Request : Request
  PathParams : Params
  Route : Route
deriving DecidableEq

/-- The library functions the package calls.  `Spec` is `openapi3.Swagger`,
`Router` is `openapi3filter.Router`, `Route` and `Params` are what
`FindRoute` returns. -/
structure Lib (Spec Router Route Params : Type) where
  /-- `openapi3.NewSwaggerLoader().LoadSwaggerFromFile(path)` -/
  LoadSwaggerFromFile : String → Except String Spec
  /-- `openapi3.NewSwaggerLoader().LoadSwaggerFromData(data)` -/
  LoadSwaggerFromData : String → Except String Spec
  /-- `openapi3filter.NewRouter()` -/
  NewRouter : Router
  /-- `router.AddSwagger(spec)`: the router with the routes added, or an error -/
  AddSwagger : Router → Spec → Except String Router
  /-- `router.FindRoute(method, url)` -/
  FindRoute : Router → String → URL → Except String (Route × Params)
  /-- `openapi3filter.ValidateRequest(ctx, input)`: `some msg` is an error -/
  ValidateRequest : RequestValidationInput Route Params → Option String
  /-- What `json.NewEncoder(w).Encode(spec)` writes to `w` -/
  Encode : Spec → String
  /-- `http.DetectContentType` -/
  DetectContentType : String → String

/-- A call that leaves the package.  `ServeHTTP w r` is `next.ServeHTTP(w, r)`
with the writer and the request as they are at the call. -/
inductive Call (Spec Route Params : Type) where
  | LoadSwaggerFromFile (path : String)
  | LoadSwaggerFromData (data : String)
  | NewRouter
  | AddSwagger (spec : Spec)
  | FindRoute (method : String) (url : URL)
  | ValidateRequest (input : RequestValidationInput Route Params)
  | ServeHTTP (w : ResponseWriter) (r : Request)
deriving DecidableEq

/-- Whether the call is `next.ServeHTTP`. -/
def Call.isServeHTTP {Spec Route Params : Type} : Call Spec Route Params → Bool
  | .ServeHTTP _ _ => true
  | _ => false

/-- Whether the call is `FindRoute`. -/
def Call.isFindRoute {Spec Route Params : Type} : Call Spec Route Params → Bool
  | .FindRoute _ _ => true
  | _ => false

/-- Whether the call is `ValidateRequest`. -/
def Call.isValidateRequest {Spec Route Params : Type} : Call Spec Route Params → Bool
  | .ValidateRequest _ => true
  | _ => false

/-- Whether the call builds the route index (`NewRouter`, `AddSwagger`). -/
def Call.isRouterBuild {Spec Route Params : Type} : Call Spec Route Params → Bool
  | .NewRouter => true
  | .AddSwagger _ => true
  | _ => false

/-! ## The package -/

/-- `const specPath`. -/
def specPath : String := "/spec.json"
/-- `const docPath`. -/
def docPath : String := "/"

/-- `const docTemplate`. -/
def docTemplate : String :=
  "\n<!DOCTYPE html>\n<html>\n\n<body>\n    <redoc spec-url=\"./spec.json\"></redoc>\n    <script src=\"https://cdn.jsdelivr.net/npm/redoc@next/bundles/redoc.standalone.js\"> </script>\n</body>\n\n</html>\n"

/-- `type OpenAPI struct`. -/
structure OpenAPI (Spec Router : Type) where
  spec : Spec
  router : Router
deriving DecidableEq

/-- What a constructor returns, `(*OpenAPI, error)`, and the library calls
it made. -/
structure Built (Spec Router Route Params : Type) where
  api : Option (OpenAPI Spec Router)
  err : Option String
  calls : List (Call Spec Route Params)

/-- `func newFromSpec`. -/
def newFromSpec {Spec Router Route Params : Type} (lib : Lib Spec Router Route Params)
    (spec : Spec) : Built Spec Router Route Params :=
  let router := lib.NewRouter
  match lib.AddSwagger router spec with
  | .error err => ⟨none, some err, [.NewRouter, .AddSwagger spec]⟩
  | .ok router1 => ⟨some ⟨spec, router1⟩, none, [.NewRouter, .AddSwagger spec]⟩

/-- `func NewFromFile`. -/
def NewFromFile {Spec Router Route Params : Type} (lib : Lib Spec Router Route Params)
    (path : String) : Built Spec Router Route Params :=
  match lib.LoadSwaggerFromFile path with
  | .error err => ⟨none, some err, [.LoadSwaggerFromFile path]⟩
  | .ok spec =>
    let b := newFromSpec lib spec
    { b with calls := .LoadSwaggerFromFile path :: b.calls }

/-- `func NewFromData`. -/
def NewFromData {Spec Router Route Params : Type} (lib : Lib Spec Router Route Params)
    (data : String) : Built Spec Router Route Params :=
  match lib.LoadSwaggerFromData data with
  | .error err => ⟨none, some err, [.LoadSwaggerFromData data]⟩
  | .ok spec =>
    let b := newFromSpec lib spec
    { b with calls := .LoadSwaggerFromData data :: b.calls }

/-- What one run of the handler leaves behind: the response, the request
object as it is after the run, and the calls made, in order. -/
structure Outcome (Spec Route Params : Type) where
  w : ResponseWriter
  r : Request
  calls : List (Call Spec Route Params)

/-- Lines 80-85: `url := r.URL` copies a pointer, so the two assignments
through `url` write the host and scheme of the request's own URL. -/
def hostWorkaround (r : Request) : Request :=
  if r.Header.Get "Host" = "" then
    { r with URL := { r.URL with Host := "localhost", Scheme := "http" } }
  else r

/-- Lines 89-101: the response to a `FindRoute` error. -/
def routeError (detect : String → String) (w : ResponseWriter) (err : String) : ResponseWriter :=
  if err = "Does not match any server" then
    Error detect w "Host does not exist" StatusNotFound
  else if err = "Path was not found" then
    Error detect w "Path does not exist" StatusNotFound
  else if err = "Path doesn't support the HTTP method" then
    Error detect w "Path doesn't support the HTTP method" StatusBadRequest
  else
    Error detect w err StatusBadRequest

/-- `func (api *OpenAPI) Middleware(next http.Handler) http.Handler`: the
handler it returns, run on a writer and a request. -/
def Middleware {Spec Router Route Params : Type} (lib : Lib Spec Router Route Params)
    (api : OpenAPI Spec Router) (next : Handler) (w : ResponseWriter) (r : Request) :
    Outcome Spec Route Params :=
  -- serve static spec request
  if r.URL.Path = specPath ∧ r.Method = MethodGet then
    let w1 := w.HeaderSet "Content-Type" "application/json"
    ⟨w1.Write lib.DetectContentType (lib.Encode api.spec), r, []⟩
  -- serve documentation request
  else if r.URL.Path = docPath ∧ r.Method = MethodGet then
    ⟨w.Write lib.DetectContentType docTemplate, r, []⟩
  else
    -- workaround: kin-openapi issue 118
    let r1 := hostWorkaround r
    let url := r1.URL
    -- test if route exists in spec
    match lib.FindRoute api.router r1.Method url with
    | .error err =>
      ⟨routeError lib.DetectContentType w err, r1, [.FindRoute r1.Method url]⟩
    | .ok (route, params) =>
      -- validate request input
      let input : RequestValidationInput Route Params :=
        { Request := r1, PathParams := params, Route := route }
      match lib.ValidateRequest input with
      | some err =>
        ⟨Error lib.DetectContentType w err StatusBadRequest, r1,
          [.FindRoute r1.Method url, .ValidateRequest input]⟩
      | none =>
        ⟨next w r1, r1,
          [.FindRoute r1.Method url, .ValidateRequest input, .ServeHTTP w r1]⟩

/-! ## net/http content sniffing, and a small concrete library

Used to evaluate the handler on concrete requests. -/

/-- `isWS` of net/http `sniff.go`. -/
def isWS (c : Char) : Bool :=
  c == '\t' || c == '\n' || c == '\x0c' || c == '\r' || c == ' '

/-- `isTT` of net/http `sniff.go`: a tag-terminating byte. -/
def isTT (c : Char) : Bool :=
  c == ' ' || c == '>'

/-- The byte comparison of `htmlSig.match`: an upper-case signature byte is
compared with the data byte masked by `0xDF`. -/
def htmlSigByte (b db : Char) : Bool :=
  if 'A' ≤ b ∧ b ≤ 'Z' then b.toNat == db.toNat &&& 0xDF else b == db

/-- `htmlSig.match` of net/http `sniff.go`, on the data after its leading
white space: the signature, case-insensitively, then a tag-terminating byte. -/
def htmlSigMatch (h data : List Char) : Bool :=
  if data.length < h.length + 1 then false
  else
    (List.zipWith htmlSigByte h data).all id
      && (match data.drop h.length with
          | c :: _ => isTT c
          | [] => false)

/-- `http.DetectContentType` as far as its first signature,
`htmlSig("<!DOCTYPE HTML")`: at most 512 bytes are considered, leading white
space is skipped.  Data the first signature does not match goes to `others`,
the rest of the signature table.  Bytes are read as characters: the one text
the package writes without a Content-Type, `docTemplate`, is ASCII. -/
def DetectContentType (others : String → String) (data : String) : String :=
  let head := data.toList.take 512
  if htmlSigMatch "<!DOCTYPE HTML".toList (head.dropWhile isWS) then
    "text/html; charset=utf-8"
  else others data

/-- A specification: its operations, as (method, path). -/
abbrev DemoSpec := List (String × String)

/-- A small library: a specification is a list of operations, the router
matches a non-empty host, then the path, then the method, and the validator
refuses a query string. -/
def demoLib : Lib DemoSpec DemoSpec (String × String) (List (String × String)) where
  LoadSwaggerFromFile := fun path =>
    if path = "petstore.json" then .ok [("GET", "/pets"), ("POST", "/pets")]
    else .error "open: no such file or directory"
  LoadSwaggerFromData := fun data =>
    if data = "GET /pets" then .ok [("GET", "/pets")]
    else if data = "GET /pets GET /pets" then .ok [("GET", "/pets"), ("GET", "/pets")]
    else .error "invalid character"
  NewRouter := []
  AddSwagger := fun router spec =>
    if spec.Nodup then .ok (router ++ spec) else .error "duplicate operation"
  FindRoute := fun router method url =>
    if url.Host = "" then .error "Does not match any server"
    else if url.Path = "" then .error "Invalid route"
    else if router.all (fun e => e.2 != url.Path) then .error "Path was not found"
    else if router.contains (method, url.Path) then .ok ((method, url.Path), [])
    else .error "Path doesn't support the HTTP method"
  ValidateRequest := fun input =>
    if input.Request.URL.RawQuery = "" then none
    else some "Parameter 'limit' in query has an error: must be an integer"
  Encode := fun spec => String.intercalate "," (spec.map (fun e => e.1 ++ " " ++ e.2)) ++ "\n"
  DetectContentType := DetectContentType (fun _ => "application/octet-stream")

/-- The middleware `NewFromFile` builds from `petstore.json`. -/
def demoApi : OpenAPI DemoSpec DemoSpec :=
  ⟨[("GET", "/pets"), ("POST", "/pets")], [("GET", "/pets"), ("POST", "/pets")]⟩

/-- An application handler: answers 200 with the host it was asked for. -/
def demoNext : Handler := fun w r =>
  w.Write demoLib.DetectContentType ("host=" ++ r.URL.Host)

/-- A request with the given method, path and query, as a server receives
it: the URL has no host and no scheme, the header map has no `Host` entry. -/
def demoRequest (method path query : String) : Request :=
  { Method := method
    URL := { Scheme := "", Opaque := "", Host := "", Path := path, RawPath := "",
             RawQuery := query, Fragment := "" }
    Header := ⟨[("Accept", ["*/*"])]⟩
    Host := "api.example.com"
    Body := "" }

/-- A request whose request line has an absolute URL
(`GET https://api.example.com/pets HTTP/1.1`, or a request made with
`httptest.NewRequest`): the URL has the scheme and the host, `Host` is the
host, and the header map has no `Host` entry, because net/http keeps the Host
header in `Request.Host` and removes it from the map. -/
def demoAbsoluteRequest (method path query : String) : Request :=
  { Method := method
    URL := { Scheme := "https", Opaque := "", Host := "api.example.com", Path := path,
             RawPath := "", RawQuery := query, Fragment := "" }
    Header := ⟨[("Accept", ["*/*"])]⟩
    Host := "api.example.com"
    Body := "" }

/-- The same request with a `Host` entry written into the header map by hand,
which no request that comes from a server has. -/
def demoRequestWithHost (method path query : String) : Request :=
  { Method := method
    URL := { Scheme := "https", Opaque := "", Host := "api.example.com", Path := path,
             RawPath := "", RawQuery := query, Fragment := "" }
    Header := ⟨[("Host", ["api.example.com"])]⟩
    Host := "api.example.com"
    Body := "" }

/-- The media type of a Content-Type value (RFC 9110: `type "/" subtype`,
then parameters, each after a `;`): what stands before the first `;`, without
the blanks around it. -/
def mediaType (value : String) : String :=
  let head := (value.toList.takeWhile (fun c => c != ';')).dropWhile (fun c => c == ' ')
  String.mk (head.reverse.dropWhile (fun c => c == ' ')).reverse

/-! ## Lemmas on the writer and on the handler's branches -/

theorem Header.Get_Set (h : Header) (key value : String) :
    (h.Set key value).Get key = value := by
  simp [Header.Get, Header.Set, List.lookup]

theorem Header.Has_Set (h : Header) (key value : String) :
    (h.Set key value).Has key = true := by
  simp [Header.Has, Header.Set, List.lookup]

theorem Error_status (detect : String → String) (w : ResponseWriter) (msg : String)
    (code : Nat) (hw : w.status = none) :
    (Error detect w msg code).status = some code := by
  simp [Error, ResponseWriter.HeaderSet, ResponseWriter.WriteHeader, ResponseWriter.Write, hw]

theorem Error_body (detect : String → String) (w : ResponseWriter) (msg : String)
    (code : Nat) (hw : w.status = none) :
    (Error detect w msg code).body = w.body ++ (msg ++ "\n") := by
  simp [Error, ResponseWriter.HeaderSet, ResponseWriter.WriteHeader, ResponseWriter.Write, hw]

theorem Error_content_type (detect : String → String) (w : ResponseWriter) (msg : String)
    (code : Nat) (hw : w.status = none) :
    (Error detect w msg code).header.Get "Content-Type" = "text/plain; charset=utf-8" := by
  simp [Error, ResponseWriter.HeaderSet, ResponseWriter.WriteHeader, ResponseWriter.Write, hw,
    Header.Get, Header.Set, List.lookup, List.filter]

theorem hostWorkaround_Method (r : Request) : (hostWorkaround r).Method = r.Method := by
  unfold hostWorkaround
  split <;> rfl

theorem hostWorkaround_Path (r : Request) : (hostWorkaround r).URL.Path = r.URL.Path := by
  unfold hostWorkaround
  split <;> rfl

theorem hostWorkaround_RawQuery (r : Request) :
    (hostWorkaround r).URL.RawQuery = r.URL.RawQuery := by
  unfold hostWorkaround
  split <;> rfl

/-- The handler past the two static endpoints (lines 80-114). -/
theorem Middleware_not_static {Spec Router Route Params : Type}
    (lib : Lib Spec Router Route Params) (api : OpenAPI Spec Router) (next : Handler)
    (w : ResponseWriter) (r : Request)
    (hstatic : ¬ (r.Method = "GET" ∧ (r.URL.Path = "/spec.json" ∨ r.URL.Path = "/"))) :
    Middleware lib api next w r =
      match lib.FindRoute api.router r.Method (hostWorkaround r).URL with
      | .error err =>
        ⟨routeError lib.DetectContentType w err, hostWorkaround r,
          [.FindRoute r.Method (hostWorkaround r).URL]⟩
      | .ok (route, params) =>
        match lib.ValidateRequest ⟨hostWorkaround r, params, route⟩ with
        | some err =>
          ⟨Error lib.DetectContentType w err StatusBadRequest, hostWorkaround r,
            [.FindRoute r.Method (hostWorkaround r).URL,
             .ValidateRequest ⟨hostWorkaround r, params, route⟩]⟩
        | none =>
          ⟨next w (hostWorkaround r), hostWorkaround r,
            [.FindRoute r.Method (hostWorkaround r).URL,
             .ValidateRequest ⟨hostWorkaround r, params, route⟩,
             .ServeHTTP w (hostWorkaround r)]⟩ := by
  have h1 : ¬ (r.URL.Path = specPath ∧ r.Method = MethodGet) := by
    intro h
    exact hstatic ⟨h.2, Or.inl h.1⟩
  have h2 : ¬ (r.URL.Path = docPath ∧ r.Method = MethodGet) := by
    intro h
    exact hstatic ⟨h.2, Or.inr h.1⟩
  simp only [Middleware, if_neg h1, if_neg h2, hostWorkaround_Method]

/-- The handler on `GET /spec.json` (lines 67-72). -/
theorem Middleware_spec {Spec Router Route Params : Type}
    (lib : Lib Spec Router Route Params) (api : OpenAPI Spec Router) (next : Handler)
    (w : ResponseWriter) (r : Request) (hm : r.Method = "GET") (hp : r.URL.Path = "/spec.json") :
    Middleware lib api next w r =
      ⟨(w.HeaderSet "Content-Type" "application/json").Write lib.DetectContentType
        (lib.Encode api.spec), r, []⟩ := by
  have h1 : r.URL.Path = specPath ∧ r.Method = MethodGet := ⟨hp, hm⟩
  simp only [Middleware, if_pos h1]

/-- The handler on `GET /` (lines 74-78). -/
theorem Middleware_doc {Spec Router Route Params : Type}
    (lib : Lib Spec Router Route Params) (api : OpenAPI Spec Router) (next : Handler)
    (w : ResponseWriter) (r : Request) (hm : r.Method = "GET") (hp : r.URL.Path = "/") :
    Middleware lib api next w r = ⟨w.Write lib.DetectContentType docTemplate, r, []⟩ := by
  have h1 : ¬ (r.URL.Path = specPath ∧ r.Method = MethodGet) := by
    intro h
    rw [hp] at h
    exact absurd h.1 (by decide)
  have h2 : r.URL.Path = docPath ∧ r.Method = MethodGet := ⟨hp, hm⟩
  simp only [Middleware, if_neg h1, if_pos h2]

/-! ## The request handler -/

/-- C1: a request that is neither `GET /spec.json` nor `GET /`, whose route
resolves and whose validation passes, makes the handler call `next` exactly
once, after `FindRoute` and `ValidateRequest`; `next` is given the writer
exactly as the handler received it, and the response is exactly what `next`
returns (the handler writes no status, header or body of its own). -/
theorem Middleware_valid_request_forwarded {Spec Router Route Params : Type}
    (lib : Lib Spec Router Route Params) (api : OpenAPI Spec Router) (next : Handler)
    (w : ResponseWriter) (r : Request) (route : Route) (params : Params)
    (hspec : ¬ (r.Method = "GET" ∧ r.URL.Path = "/spec.json"))
    (hdoc : ¬ (r.Method = "GET" ∧ r.URL.Path = "/"))
    (hroute : lib.FindRoute api.router r.Method (hostWorkaround r).URL = .ok (route, params))
    (hvalid : lib.ValidateRequest ⟨hostWorkaround r, params, route⟩ = none) :
    (Middleware lib api next w r).calls.countP Call.isServeHTTP = 1 ∧
    (Middleware lib api next w r).calls =
      [.FindRoute r.Method (hostWorkaround r).URL,
       .ValidateRequest ⟨hostWorkaround r, params, route⟩,
       .ServeHTTP w (hostWorkaround r)] ∧
    (Middleware lib api next w r).w = next w (hostWorkaround r) := by
  have hstatic : ¬ (r.Method = "GET" ∧ (r.URL.Path = "/spec.json" ∨ r.URL.Path = "/")) := by
    rintro ⟨hm, hp | hp⟩
    · exact hspec ⟨hm, hp⟩
    · exact hdoc ⟨hm, hp⟩
  rw [Middleware_not_static lib api next w r hstatic, hroute]
  dsimp only
  rw [hvalid]
  refine ⟨?_, rfl, rfl⟩
  simp [List.countP_cons, Call.isServeHTTP]

/-- C1 at `GET /pets`: the application handler answers, alone. -/
theorem Middleware_valid_request_forwarded_witness :
    (Middleware demoLib demoApi demoNext ResponseWriter.fresh
        (demoRequest "GET" "/pets" "")).calls.countP Call.isServeHTTP = 1 ∧
    (Middleware demoLib demoApi demoNext ResponseWriter.fresh
        (demoRequest "GET" "/pets" "")).w =
      ⟨⟨[("Content-Type", ["application/octet-stream"])]⟩, some 200, "host=localhost"⟩ :=
  have h := Middleware_valid_request_forwarded demoLib demoApi demoNext ResponseWriter.fresh
    (demoRequest "GET" "/pets" "") ("GET", "/pets") []
    (by decide) (by decide) rfl (by decide)
  ⟨h.1, h.2.2.trans (by decide)⟩

/-- C3: for a request that is not served by a static endpoint and whose route
resolves, `ValidateRequest` is run once, on the request with the route and
the path parameters `FindRoute` returned; if it returns an error, the
response is that of `http.Error` with status 400 and the error's message
(the message as `http.Error` prints it, a line of plain text), and `next` is
not called. -/
theorem Middleware_validation_error {Spec Router Route Params : Type}
    (lib : Lib Spec Router Route Params) (api : OpenAPI Spec Router) (next : Handler)
    (w : ResponseWriter) (r : Request) (route : Route) (params : Params)
    (hstatic : ¬ (r.Method = "GET" ∧ (r.URL.Path = "/spec.json" ∨ r.URL.Path = "/")))
    (hroute : lib.FindRoute api.router r.Method (hostWorkaround r).URL = .ok (route, params))
    (hw : w.status = none) (hb : w.body = "") :
    (Middleware lib api next w r).calls.take 2 =
      [.FindRoute r.Method (hostWorkaround r).URL,
       .ValidateRequest ⟨hostWorkaround r, params, route⟩] ∧
    (Middleware lib api next w r).calls.countP Call.isValidateRequest = 1 ∧
    ∀ err : String, lib.ValidateRequest ⟨hostWorkaround r, params, route⟩ = some err →
      (Middleware lib api next w r).w = Error lib.DetectContentType w err 400 ∧
      (Middleware lib api next w r).w.status = some 400 ∧
      (Middleware lib api next w r).w.body = err ++ "\n" ∧
      (Middleware lib api next w r).w.header.Get "Content-Type" = "text/plain; charset=utf-8" ∧
      (Middleware lib api next w r).calls.countP Call.isServeHTTP = 0 := by
  rw [Middleware_not_static lib api next w r hstatic, hroute]
  dsimp only
  refine ⟨?_, ?_, ?_⟩
  · split <;> rfl
  · split <;> simp [List.countP_cons, Call.isValidateRequest]
  · intro err herr
    rw [herr]
    refine ⟨rfl, Error_status _ w err 400 hw, ?_, Error_content_type _ w err 400 hw, ?_⟩
    · show (Error lib.DetectContentType w err 400).body = err ++ "\n"
      rw [Error_body _ w err 400 hw, hb]
      simp
    · simp [List.countP_cons, Call.isServeHTTP]

/-- C3 at `GET /pets?limit=x`: 400 with the validator's message. -/
theorem Middleware_validation_error_witness :
    (Middleware demoLib demoApi demoNext ResponseWriter.fresh
        (demoRequest "GET" "/pets" "limit=x")).w.status = some 400 ∧
    (Middleware demoLib demoApi demoNext ResponseWriter.fresh
        (demoRequest "GET" "/pets" "limit=x")).w.body =
      "Parameter 'limit' in query has an error: must be an integer" ++ "\n" ∧
    (Middleware demoLib demoApi demoNext ResponseWriter.fresh
        (demoRequest "GET" "/pets" "limit=x")).calls.countP Call.isServeHTTP = 0 :=
  have h := (Middleware_validation_error demoLib demoApi demoNext ResponseWriter.fresh
    (demoRequest "GET" "/pets" "limit=x") ("GET", "/pets") []
    (by decide) rfl rfl rfl).2.2
      "Parameter 'limit' in query has an error: must be an integer" (by decide)
  ⟨h.2.1, h.2.2.1, h.2.2.2.2⟩

/-- C4: for a request that is not served by a static endpoint and whose route
resolution fails, `FindRoute` is the only call (no validation, no `next`),
and the response is `http.Error` of: 404 "Host does not exist" when no
server matches, 404 "Path does not exist" when no path matches, 400 "Path
doesn't support the HTTP method" when the path does not have the method,
and 400 with the error's own message for any other error. -/
theorem Middleware_route_error {Spec Router Route Params : Type}
    (lib : Lib Spec Router Route Params) (api : OpenAPI Spec Router) (next : Handler)
    (w : ResponseWriter) (r : Request) (err : String)
    (hstatic : ¬ (r.Method = "GET" ∧ (r.URL.Path = "/spec.json" ∨ r.URL.Path = "/")))
    (hroute : lib.FindRoute api.router r.Method (hostWorkaround r).URL = .error err)
    (hw : w.status = none) (hb : w.body = "") :
    (Middleware lib api next w r).calls = [.FindRoute r.Method (hostWorkaround r).URL] ∧
    (Middleware lib api next w r).calls.countP Call.isServeHTTP = 0 ∧
    (Middleware lib api next w r).calls.countP Call.isValidateRequest = 0 ∧
    (err = "Does not match any server" →
      (Middleware lib api next w r).w = Error lib.DetectContentType w "Host does not exist" 404 ∧
      (Middleware lib api next w r).w.status = some 404 ∧
      (Middleware lib api next w r).w.body = "Host does not exist" ++ "\n") ∧
    (err = "Path was not found" →
      (Middleware lib api next w r).w = Error lib.DetectContentType w "Path does not exist" 404 ∧
      (Middleware lib api next w r).w.status = some 404 ∧
      (Middleware lib api next w r).w.body = "Path does not exist" ++ "\n") ∧
    (err = "Path doesn't support the HTTP method" →
      (Middleware lib api next w r).w =
        Error lib.DetectContentType w "Path doesn't support the HTTP method" 400 ∧
      (Middleware lib api next w r).w.status = some 400 ∧
      (Middleware lib api next w r).w.body = "Path doesn't support the HTTP method" ++ "\n") ∧
    (err ≠ "Does not match any server" → err ≠ "Path was not found" →
      err ≠ "Path doesn't support the HTTP method" →
      (Middleware lib api next w r).w = Error lib.DetectContentType w err 400 ∧
      (Middleware lib api next w r).w.status = some 400 ∧
      (Middleware lib api next w r).w.body = err ++ "\n") := by
  rw [Middleware_not_static lib api next w r hstatic, hroute]
  have body : ∀ (msg : String) (code : Nat),
      (Error lib.DetectContentType w msg code).body = msg ++ "\n" := by
    intro msg code
    rw [Error_body _ w msg code hw, hb]
    simp
  refine ⟨rfl, by simp [Call.isServeHTTP], by simp [Call.isValidateRequest], ?_, ?_, ?_, ?_⟩
  · intro h
    subst h
    exact ⟨rfl, Error_status _ w _ 404 hw, body _ 404⟩
  · intro h
    subst h
    exact ⟨rfl, Error_status _ w _ 404 hw, body _ 404⟩
  · intro h
    subst h
    exact ⟨rfl, Error_status _ w _ 400 hw, body _ 400⟩
  · intro h1 h2 h3
    have hre : routeError lib.DetectContentType w err = Error lib.DetectContentType w err 400 := by
      simp only [routeError, if_neg h1, if_neg h2, if_neg h3]
      rfl
    show routeError lib.DetectContentType w err = Error lib.DetectContentType w err 400 ∧
      (routeError lib.DetectContentType w err).status = some 400 ∧
      (routeError lib.DetectContentType w err).body = err ++ "\n"
    rw [hre]
    exact ⟨rfl, Error_status _ w _ 400 hw, body _ 400⟩

/-- C4 at `DELETE /pets`, a path that has `GET` and `POST` only. -/
theorem Middleware_route_error_witness :
    (Middleware demoLib demoApi demoNext ResponseWriter.fresh
        (demoRequest "DELETE" "/pets" "")).w.status = some 400 ∧
    (Middleware demoLib demoApi demoNext ResponseWriter.fresh
        (demoRequest "DELETE" "/pets" "")).w.body =
      "Path doesn't support the HTTP method" ++ "\n" ∧
    (Middleware demoLib demoApi demoNext ResponseWriter.fresh
        (demoRequest "DELETE" "/pets" "")).calls.countP Call.isServeHTTP = 0 :=
  have h := Middleware_route_error demoLib demoApi demoNext ResponseWriter.fresh
    (demoRequest "DELETE" "/pets" "") "Path doesn't support the HTTP method"
    (by decide) rfl rfl rfl
  ⟨(h.2.2.2.2.2.1 rfl).2.1, (h.2.2.2.2.2.1 rfl).2.2, h.2.1⟩

/-- C5: on `GET /spec.json`, whatever else the request carries and whatever
the specification is, the response has status 200, Content-Type
`application/json` and, as body, the JSON encoding of the loaded
specification (so any decoder that reads the encoding back reads the loaded
specification from the body); the handler makes no call: not `next`, not
`FindRoute`, not `ValidateRequest`. -/
theorem Middleware_serves_spec {Spec Router Route Params : Type}
    (lib : Lib Spec Router Route Params) (api : OpenAPI Spec Router) (next : Handler)
    (w : ResponseWriter) (r : Request)
    (hm : r.Method = "GET") (hp : r.URL.Path = "/spec.json")
    (hw : w.status = none) (hb : w.body = "") :
    (Middleware lib api next w r).w.status = some 200 ∧
    (Middleware lib api next w r).w.header.Get "Content-Type" = "application/json" ∧
    (Middleware lib api next w r).w.body = lib.Encode api.spec ∧
    (∀ decode : String → Option Spec, decode (lib.Encode api.spec) = some api.spec →
      decode (Middleware lib api next w r).w.body = some api.spec) ∧
    (Middleware lib api next w r).calls = [] := by
  rw [Middleware_spec lib api next w r hm hp]
  have hbody : ((w.HeaderSet "Content-Type" "application/json").Write lib.DetectContentType
      (lib.Encode api.spec)).body = lib.Encode api.spec := by
    simp [ResponseWriter.HeaderSet, ResponseWriter.Write, hw, hb]
  refine ⟨?_, ?_, hbody, ?_, rfl⟩
  · simp [ResponseWriter.HeaderSet, ResponseWriter.Write, hw, StatusOK]
  · simp [ResponseWriter.HeaderSet, ResponseWriter.Write, hw, Header.Has_Set, Header.Get_Set]
  · intro decode hdec
    show decode ((w.HeaderSet "Content-Type" "application/json").Write lib.DetectContentType
      (lib.Encode api.spec)).body = some api.spec
    rw [hbody, hdec]

/-- C5 at `GET /spec.json?x=1`. -/
theorem Middleware_serves_spec_witness :
    (Middleware demoLib demoApi demoNext ResponseWriter.fresh
        (demoRequest "GET" "/spec.json" "x=1")).w =
      ⟨⟨[("Content-Type", ["application/json"])]⟩, some 200, "GET /pets,POST /pets\n"⟩ ∧
    (Middleware demoLib demoApi demoNext ResponseWriter.fresh
        (demoRequest "GET" "/spec.json" "x=1")).calls = [] :=
  ⟨by decide, (Middleware_serves_spec demoLib demoApi demoNext ResponseWriter.fresh
    (demoRequest "GET" "/spec.json" "x=1") rfl rfl rfl rfl).2.2.2.2⟩

/-- C6: on `GET /`, whatever the request and the specification, the
response has status 200 and its body is the constant `docTemplate`, which
contains the reference `./spec.json`; the handler makes no call: not `next`,
not `FindRoute`, not `ValidateRequest`. -/
theorem Middleware_serves_doc {Spec Router Route Params : Type}
    (lib : Lib Spec Router Route Params) (api : OpenAPI Spec Router) (next : Handler)
    (w : ResponseWriter) (r : Request)
    (hm : r.Method = "GET") (hp : r.URL.Path = "/")
    (hw : w.status = none) (hb : w.body = "") :
    (Middleware lib api next w r).w.status = some 200 ∧
    (Middleware lib api next w r).w.body = docTemplate ∧
    (∃ pre post : String, docTemplate = pre ++ "./spec.json" ++ post) ∧
    (Middleware lib api next w r).calls = [] := by
  rw [Middleware_doc lib api next w r hm hp]
  refine ⟨?_, ?_, ?_, rfl⟩
  · simp [ResponseWriter.Write, hw, StatusOK]
  · simp [ResponseWriter.Write, hw, hb]
  · exact ⟨"\n<!DOCTYPE html>\n<html>\n\n<body>\n    <redoc spec-url=\"",
      "\"></redoc>\n    <script src=\"https://cdn.jsdelivr.net/npm/redoc@next/bundles/redoc.standalone.js\"> </script>\n</body>\n\n</html>\n",
      by decide⟩

/-- C6 at `GET /?lang=en`. -/
theorem Middleware_serves_doc_witness :
    (Middleware demoLib demoApi demoNext ResponseWriter.fresh
        (demoRequest "GET" "/" "lang=en")).w.status = some 200 ∧
    (Middleware demoLib demoApi demoNext ResponseWriter.fresh
        (demoRequest "GET" "/" "lang=en")).w.body = docTemplate ∧
    (Middleware demoLib demoApi demoNext ResponseWriter.fresh
        (demoRequest "GET" "/" "lang=en")).calls = [] :=
  have h := Middleware_serves_doc demoLib demoApi demoNext ResponseWriter.fresh
    (demoRequest "GET" "/" "lang=en") rfl rfl rfl rfl
  ⟨h.1, h.2.1, h.2.2.2⟩

/-- C7: on `GET /` the response carries a Content-Type header of media type
`text/html`.  The handler's whole effect is one `Write` of `docTemplate`; on
a writer that has sent nothing and has no Content-Type line yet, `Write` adds
the line from `http.DetectContentType` of the body, whose first signature
matches `docTemplate`: the header is `text/html; charset=utf-8`. -/
theorem Middleware_doc_content_type {Spec Router Route Params : Type}
    (lib : Lib Spec Router Route Params) (api : OpenAPI Spec Router) (next : Handler)
    (w : ResponseWriter) (r : Request)
    (hm : r.Method = "GET") (hp : r.URL.Path = "/")
    (hw : w.status = none) (hct : w.header.Has "Content-Type" = false)
    (hsniff : ∃ others : String → String, lib.DetectContentType = DetectContentType others) :
    (Middleware lib api next w r).w = w.Write lib.DetectContentType docTemplate ∧
    (Middleware lib api next w r).w.header.Has "Content-Type" = true ∧
    (Middleware lib api next w r).w.header.Get "Content-Type" = "text/html; charset=utf-8" ∧
    mediaType ((Middleware lib api next w r).w.header.Get "Content-Type") = "text/html" := by
  obtain ⟨others, hothers⟩ := hsniff
  have hdetect : lib.DetectContentType docTemplate = "text/html; charset=utf-8" := by
    rw [hothers]
    rfl
  have hget : (w.Write lib.DetectContentType docTemplate).header.Get "Content-Type" =
      "text/html; charset=utf-8" := by
    simp [ResponseWriter.Write, hw, hct, Header.Get_Set, hdetect]
  rw [Middleware_doc lib api next w r hm hp]
  refine ⟨rfl, ?_, hget, ?_⟩
  · simp [ResponseWriter.Write, hw, hct, Header.Has_Set]
  · show mediaType ((w.Write lib.DetectContentType docTemplate).header.Get "Content-Type") =
      "text/html"
    rw [hget]
    decide

/-- C7 at `GET /` on a fresh writer. -/
theorem Middleware_doc_content_type_witness :
    (Middleware demoLib demoApi demoNext ResponseWriter.fresh
        (demoRequest "GET" "/" "")).w.header =
      ⟨[("Content-Type", ["text/html; charset=utf-8"])]⟩ ∧
    mediaType ((Middleware demoLib demoApi demoNext ResponseWriter.fresh
        (demoRequest "GET" "/" "")).w.header.Get "Content-Type") = "text/html" :=
  ⟨by decide,
   (Middleware_doc_content_type demoLib demoApi demoNext ResponseWriter.fresh
    (demoRequest "GET" "/" "") rfl rfl rfl rfl
    ⟨fun _ => "application/octet-stream", rfl⟩).2.2.2⟩

/-- The URL of the handler's one `FindRoute` call, by the test the code
makes (line 82, on the header map): host `localhost` and scheme `http` when
`r.Header.Get("Host")` is empty, the request's URL otherwise; method, path
and query are the request's. -/
theorem FindRoute_url_by_header_entry {Spec Router Route Params : Type}
    (lib : Lib Spec Router Route Params) (api : OpenAPI Spec Router) (next : Handler)
    (w : ResponseWriter) (r : Request)
    (hstatic : ¬ (r.Method = "GET" ∧ (r.URL.Path = "/spec.json" ∨ r.URL.Path = "/"))) :
    ∃ url : URL,
      (Middleware lib api next w r).calls.head? = some (.FindRoute r.Method url) ∧
      (Middleware lib api next w r).calls.countP Call.isFindRoute = 1 ∧
      (r.Header.Get "Host" = "" →
        url = { r.URL with Host := "localhost", Scheme := "http" }) ∧
      (r.Header.Get "Host" ≠ "" → url = r.URL) ∧
      url.Path = r.URL.Path ∧ url.RawQuery = r.URL.RawQuery := by
  refine ⟨(hostWorkaround r).URL, ?_, ?_, ?_, ?_, hostWorkaround_Path r,
    hostWorkaround_RawQuery r⟩
  · rw [Middleware_not_static lib api next w r hstatic]
    split
    · rfl
    · split <;> rfl
  · rw [Middleware_not_static lib api next w r hstatic]
    split
    · simp [Call.isFindRoute]
    · split <;> simp [List.countP_cons, Call.isFindRoute]
  · intro h
    simp [hostWorkaround, h]
  · intro h
    simp [hostWorkaround, h]

/-- C9 fails on the code, in its second clause.  A request whose host is
present (`Host` and the URL's host are `api.example.com`, the scheme is
`https`) has no `Host` entry in its header map, as every request a server
hands over, and the handler asks the router for `http://localhost/pets`:
host and scheme are not left as they are.  The same holds for the request
with a relative URL, whose host is in `Host`.  Only an entry written into the
header map keeps the URL. -/
theorem Middleware_FindRoute_url_host_present :
    (demoAbsoluteRequest "GET" "/pets" "").Host = "api.example.com" ∧
    (demoAbsoluteRequest "GET" "/pets" "").URL.Host = "api.example.com" ∧
    (demoAbsoluteRequest "GET" "/pets" "").URL.Scheme = "https" ∧
    (Middleware demoLib demoApi demoNext ResponseWriter.fresh
        (demoAbsoluteRequest "GET" "/pets" "")).calls.head? =
      some (.FindRoute "GET" ⟨"http", "", "localhost", "/pets", "", "", ""⟩) ∧
    (demoRequest "GET" "/pets" "limit=3").Host = "api.example.com" ∧
    (Middleware demoLib demoApi demoNext ResponseWriter.fresh
        (demoRequest "GET" "/pets" "limit=3")).calls.head? =
      some (.FindRoute "GET" ⟨"http", "", "localhost", "/pets", "", "limit=3", ""⟩) ∧
    (Middleware demoLib demoApi demoNext ResponseWriter.fresh
        (demoRequestWithHost "GET" "/pets" "")).calls.head? =
      some (.FindRoute "GET" ⟨"https", "", "api.example.com", "/pets", "", "", ""⟩) := by
  decide

/-- C10: the handler makes no call (it serves a static document) exactly
when the method is `GET` and the path is `/spec.json` or `/`.  For every
other request its first call is `FindRoute` and its response is the one the
router and the validator decide: the error response of the route error, the
400 of a validation error, or what `next` returns. -/
theorem Middleware_static_iff {Spec Router Route Params : Type}
    (lib : Lib Spec Router Route Params) (api : OpenAPI Spec Router) (next : Handler)
    (w : ResponseWriter) (r : Request) :
    ((Middleware lib api next w r).calls = [] ↔
      r.Method = "GET" ∧ (r.URL.Path = "/spec.json" ∨ r.URL.Path = "/")) ∧
    (r.Method = "GET" ∧ r.URL.Path = "/spec.json" →
      (Middleware lib api next w r).w =
        (w.HeaderSet "Content-Type" "application/json").Write lib.DetectContentType
          (lib.Encode api.spec)) ∧
    (r.Method = "GET" ∧ r.URL.Path = "/" →
      (Middleware lib api next w r).w = w.Write lib.DetectContentType docTemplate) ∧
    (¬ (r.Method = "GET" ∧ (r.URL.Path = "/spec.json" ∨ r.URL.Path = "/")) →
      (Middleware lib api next w r).calls.head? =
        some (.FindRoute r.Method (hostWorkaround r).URL) ∧
      (Middleware lib api next w r).w =
        match lib.FindRoute api.router r.Method (hostWorkaround r).URL with
        | .error err => routeError lib.DetectContentType w err
        | .ok (route, params) =>
          match lib.ValidateRequest ⟨hostWorkaround r, params, route⟩ with
          | some err => Error lib.DetectContentType w err 400
          | none => next w (hostWorkaround r)) := by
  have hns : ¬ (r.Method = "GET" ∧ (r.URL.Path = "/spec.json" ∨ r.URL.Path = "/")) →
      (Middleware lib api next w r).calls.head? =
        some (.FindRoute r.Method (hostWorkaround r).URL) ∧
      (Middleware lib api next w r).w =
        match lib.FindRoute api.router r.Method (hostWorkaround r).URL with
        | .error err => routeError lib.DetectContentType w err
        | .ok (route, params) =>
          match lib.ValidateRequest ⟨hostWorkaround r, params, route⟩ with
          | some err => Error lib.DetectContentType w err 400
          | none => next w (hostWorkaround r) := by
    intro hstatic
    rw [Middleware_not_static lib api next w r hstatic]
    split
    · exact ⟨rfl, rfl⟩
    · split <;> exact ⟨rfl, rfl⟩
  refine ⟨⟨?_, ?_⟩, ?_, ?_, hns⟩
  · intro hcalls
    by_contra hstatic
    have h := (hns hstatic).1
    rw [hcalls] at h
    simp at h
  · rintro ⟨hm, hp | hp⟩
    · rw [Middleware_spec lib api next w r hm hp]
    · rw [Middleware_doc lib api next w r hm hp]
  · rintro ⟨hm, hp⟩
    rw [Middleware_spec lib api next w r hm hp]
  · rintro ⟨hm, hp⟩
    rw [Middleware_doc lib api next w r hm hp]

/-- C10 at `HEAD /spec.json`, `POST /`, `GET /spec.json/`, `GET` with the
empty path and `GET /Spec.json`: each goes to the router. -/
theorem Middleware_static_iff_witness :
    (Middleware demoLib demoApi demoNext ResponseWriter.fresh
        (demoRequest "HEAD" "/spec.json" "")).calls ≠ [] ∧
    (Middleware demoLib demoApi demoNext ResponseWriter.fresh
        (demoRequest "POST" "/" "")).calls ≠ [] ∧
    (Middleware demoLib demoApi demoNext ResponseWriter.fresh
        (demoRequest "GET" "/spec.json/" "")).calls ≠ [] ∧
    (Middleware demoLib demoApi demoNext ResponseWriter.fresh
        (demoRequest "GET" "" "")).calls ≠ [] ∧
    (Middleware demoLib demoApi demoNext ResponseWriter.fresh
        (demoRequest "GET" "/Spec.json" "")).calls ≠ [] ∧
    (Middleware demoLib demoApi demoNext ResponseWriter.fresh
        (demoRequest "GET" "/spec.json" "")).calls = [] :=
  ⟨fun h => absurd ((Middleware_static_iff demoLib demoApi demoNext ResponseWriter.fresh
      (demoRequest "HEAD" "/spec.json" "")).1.mp h) (by decide),
   fun h => absurd ((Middleware_static_iff demoLib demoApi demoNext ResponseWriter.fresh
      (demoRequest "POST" "/" "")).1.mp h) (by decide),
   fun h => absurd ((Middleware_static_iff demoLib demoApi demoNext ResponseWriter.fresh
      (demoRequest "GET" "/spec.json/" "")).1.mp h) (by decide),
   fun h => absurd ((Middleware_static_iff demoLib demoApi demoNext ResponseWriter.fresh
      (demoRequest "GET" "" "")).1.mp h) (by decide),
   fun h => absurd ((Middleware_static_iff demoLib demoApi demoNext ResponseWriter.fresh
      (demoRequest "GET" "/Spec.json" "")).1.mp h) (by decide),
   (Middleware_static_iff demoLib demoApi demoNext ResponseWriter.fresh
      (demoRequest "GET" "/spec.json" "")).1.mpr (by decide)⟩

/-- C2 fails on the code: at `GET /pets` as a server receives it (no `Host`
entry in the header map, a URL without host and scheme), validation passes
and `next` is called with a request whose URL has host `localhost` and
scheme `http`, which is not the request the handler received. -/
theorem Middleware_next_gets_rewritten_url :
    (demoRequest "GET" "/pets" "").URL.Host = "" ∧
    (demoRequest "GET" "/pets" "").URL.Scheme = "" ∧
    (Middleware demoLib demoApi demoNext ResponseWriter.fresh
        (demoRequest "GET" "/pets" "")).calls.getLast? =
      some (.ServeHTTP ResponseWriter.fresh
        { demoRequest "GET" "/pets" "" with
          URL := ⟨"http", "", "localhost", "/pets", "", "", ""⟩ }) ∧
    (Middleware demoLib demoApi demoNext ResponseWriter.fresh
        (demoRequest "GET" "/pets" "")).r ≠ demoRequest "GET" "/pets" "" := by
  decide

/-! ## The constructors -/

/-- `newFromSpec` by the result of `AddSwagger` on a new router. -/
theorem newFromSpec_cases {Spec Router Route Params : Type}
    (lib : Lib Spec Router Route Params) (spec : Spec) :
    (∀ e : String, lib.AddSwagger lib.NewRouter spec = .error e →
      newFromSpec lib spec = ⟨none, some e, [.NewRouter, .AddSwagger spec]⟩) ∧
    (∀ router : Router, lib.AddSwagger lib.NewRouter spec = .ok router →
      newFromSpec lib spec = ⟨some ⟨spec, router⟩, none, [.NewRouter, .AddSwagger spec]⟩) := by
  constructor
  · intro e h
    simp only [newFromSpec, h]
  · intro router h
    simp only [newFromSpec, h]

/-- The result of `newFromSpec` is a middleware without an error or an error
without a middleware. -/
theorem newFromSpec_exclusive {Spec Router Route Params : Type}
    (lib : Lib Spec Router Route Params) (spec : Spec) :
    ((newFromSpec lib spec).api.isSome = true ∧ (newFromSpec lib spec).err = none) ∨
    ((newFromSpec lib spec).api = none ∧ (newFromSpec lib spec).err.isSome = true) := by
  cases h : lib.AddSwagger lib.NewRouter spec with
  | error e =>
    rw [(newFromSpec_cases lib spec).1 e h]
    exact Or.inr ⟨rfl, rfl⟩
  | ok router =>
    rw [(newFromSpec_cases lib spec).2 router h]
    exact Or.inl ⟨rfl, rfl⟩

/-- C8: `NewFromFile` and `NewFromData` return a middleware and no error, or
an error and no middleware, never both and never neither.  When the loader
fails its error is returned and the router is not touched; when the document
loads and `AddSwagger` fails that error is returned without a middleware;
when both succeed the middleware holds the loaded specification and the
router `AddSwagger` built from this specification on a new router. -/
theorem constructors_all_or_nothing {Spec Router Route Params : Type}
    (lib : Lib Spec Router Route Params) (path data : String) :
    (((NewFromFile lib path).api.isSome = true ∧ (NewFromFile lib path).err = none) ∨
      ((NewFromFile lib path).api = none ∧ (NewFromFile lib path).err.isSome = true)) ∧
    (((NewFromData lib data).api.isSome = true ∧ (NewFromData lib data).err = none) ∨
      ((NewFromData lib data).api = none ∧ (NewFromData lib data).err.isSome = true)) ∧
    (∀ e : String, lib.LoadSwaggerFromFile path = .error e →
      (NewFromFile lib path).api = none ∧ (NewFromFile lib path).err = some e ∧
      (NewFromFile lib path).calls.countP Call.isRouterBuild = 0) ∧
    (∀ e : String, lib.LoadSwaggerFromData data = .error e →
      (NewFromData lib data).api = none ∧ (NewFromData lib data).err = some e ∧
      (NewFromData lib data).calls.countP Call.isRouterBuild = 0) ∧
    (∀ (spec : Spec) (e : String), lib.LoadSwaggerFromFile path = .ok spec →
      lib.AddSwagger lib.NewRouter spec = .error e →
      (NewFromFile lib path).api = none ∧ (NewFromFile lib path).err = some e) ∧
    (∀ (spec : Spec) (e : String), lib.LoadSwaggerFromData data = .ok spec →
      lib.AddSwagger lib.NewRouter spec = .error e →
      (NewFromData lib data).api = none ∧ (NewFromData lib data).err = some e) ∧
    (∀ (spec : Spec) (router : Router), lib.LoadSwaggerFromFile path = .ok spec →
      lib.AddSwagger lib.NewRouter spec = .ok router →
      (NewFromFile lib path).api = some ⟨spec, router⟩ ∧ (NewFromFile lib path).err = none ∧
      (NewFromFile lib path).calls =
        [.LoadSwaggerFromFile path, .NewRouter, .AddSwagger spec]) ∧
    (∀ (spec : Spec) (router : Router), lib.LoadSwaggerFromData data = .ok spec →
      lib.AddSwagger lib.NewRouter spec = .ok router →
      (NewFromData lib data).api = some ⟨spec, router⟩ ∧ (NewFromData lib data).err = none ∧
      (NewFromData lib data).calls =
        [.LoadSwaggerFromData data, .NewRouter, .AddSwagger spec]) := by
  refine ⟨?_, ?_, ?_, ?_, ?_, ?_, ?_, ?_⟩
  · unfold NewFromFile
    split
    · exact Or.inr ⟨rfl, rfl⟩
    · exact newFromSpec_exclusive lib _
  · unfold NewFromData
    split
    · exact Or.inr ⟨rfl, rfl⟩
    · exact newFromSpec_exclusive lib _
  · intro e h
    simp [NewFromFile, h, Call.isRouterBuild]
  · intro e h
    simp [NewFromData, h, Call.isRouterBuild]
  · intro spec e h1 h2
    simp [NewFromFile, h1, (newFromSpec_cases lib spec).1 e h2]
  · intro spec e h1 h2
    simp [NewFromData, h1, (newFromSpec_cases lib spec).1 e h2]
  · intro spec router h1 h2
    simp [NewFromFile, h1, (newFromSpec_cases lib spec).2 router h2]
  · intro spec router h1 h2
    simp [NewFromData, h1, (newFromSpec_cases lib spec).2 router h2]

/-- C8 at three inputs: a file that loads and indexes, data that does not
parse, and data that parses but names an operation twice. -/
theorem constructors_all_or_nothing_witness :
    ((NewFromFile demoLib "petstore.json").api = some demoApi ∧
      (NewFromFile demoLib "petstore.json").err = none) ∧
    ((NewFromData demoLib "paths: [").api = none ∧
      (NewFromData demoLib "paths: [").err = some "invalid character" ∧
      (NewFromData demoLib "paths: [").calls.countP Call.isRouterBuild = 0) ∧
    ((NewFromData demoLib "GET /pets GET /pets").api = none ∧
      (NewFromData demoLib "GET /pets GET /pets").err = some "duplicate operation") :=
  have h := constructors_all_or_nothing demoLib "petstore.json" "paths: ["
  have g := constructors_all_or_nothing demoLib "petstore.json" "GET /pets GET /pets"
  ⟨⟨(h.2.2.2.2.2.2.1 [("GET", "/pets"), ("POST", "/pets")]
        [("GET", "/pets"), ("POST", "/pets")] rfl rfl).1,
    (h.2.2.2.2.2.2.1 [("GET", "/pets"), ("POST", "/pets")]
        [("GET", "/pets"), ("POST", "/pets")] rfl rfl).2.1⟩,
   h.2.2.2.1 "invalid character" rfl,
   g.2.2.2.2.2.1 [("GET", "/pets"), ("GET", "/pets")] "duplicate operation" rfl rfl⟩

end openapi
